import Mathlib

/-!
Verification of the rt106 Multi-Omics Heterogeneity Analysis adaptor
(`rt106SpecificAdaptorCode.py`).

The single entry point of the repository, `run_algorithm(datastore, context)`,
clears a scratch directory, resolves and fetches a cell-quantification table,
runs three external analysis stages (threshold computation, cell-state
classification, heterogeneity aggregation) as subprocesses, publishes their
outputs back to the data store, and parses the final output file into a
key-value result.

The development below is a shallow embedding of that function.  External
collaborators (the data store, the subprocess launcher, the filesystem) are
modelled as oracles packaged in `Datastore` and `World`; the run additionally
produces a `Trace` recording which subprocess commands were executed and which
files were published, so that claims about order and absence of calls can be
stated.  Python exceptions that escape the function (IndexError, KeyError and
the unbound-local error on `hetdict`) are modelled with `Except PyErr`.
-/

set_option maxRecDepth 4000
set_option linter.unusedVariables false

/-- Python runtime values that can flow through the adaptor: integers,
strings, and type objects (the result of a Python `type(x)` expression). -/
inductive PyVal where
  | int (n : Int)
  | str (s : String)
  | typeObj (name : String)
  deriving DecidableEq

/-- Python `type(v)`: the type object of the value. -/
def pyType : PyVal → PyVal
  | .int _ => .typeObj "int"
  | .str _ => .typeObj "str"
  | .typeObj _ => .typeObj "type"

/-- Python 2 `==` between the modelled values: structural equality within one
runtime type, and `False` across different runtime types.  In particular a
type object never equals a string, which is what makes the guard on line 22 of
the source dead. -/
def pyEq : PyVal → PyVal → Bool
  | .int a, .int b => a == b
  | .str a, .str b => a == b
  | .typeObj a, .typeObj b => a == b
  | _, _ => false

/-- Python 2 `>` on the modelled values; numbers order below every other type,
mixed non-numeric types order by type name ("str" < "type").  Only reachable
from the dead guard of line 22, where it is short-circuited away. -/
def pyGt : PyVal → PyVal → Bool
  | .int a, .int b => decide (b < a)
  | .str a, .str b => decide (b < a)
  | .typeObj a, .typeObj b => decide (b < a)
  | .int _, _ => false
  | _, .int _ => true
  | .str _, .typeObj _ => false
  | .typeObj _, .str _ => true

/-- The Input Resolver guard of source line 22:
`type(cell_quant_path) == "int" and cell_quant_path > 200`.
The left operand compares a type object against the string literal "int". -/
def quantNotFoundCheck (cell_quant_path : PyVal) : Bool :=
  pyEq (pyType cell_quant_path) (PyVal.str "int") && pyGt cell_quant_path (PyVal.int 200)

/-- Python exceptions that can escape `run_algorithm`: an IndexError from
`hetval_list[i]` (source line 103), a KeyError from `hetdict[...]` (source
lines 109-111), and the unbound-local NameError raised when `hetdict` is
referenced without having been assigned (source line 109 on the
`EXECUTION_ERROR` path). -/
inductive PyErr where
  | indexError
  | keyError (k : String)
  | nameError (n : String)
  deriving DecidableEq

/-- A Python dict from strings to strings, as an insertion-ordered
association list with unique keys (the semantics of dict assignment). -/
abbrev PyDict := List (String × String)

/-- Python dict assignment `d[k] = v`: overwrite in place if the key is
present, append otherwise. -/
def dictInsert : PyDict → String → String → PyDict
  | [], k, v => [(k, v)]
  | (k', v') :: rest, k, v =>
    if k' = k then (k', v) :: rest else (k', v') :: dictInsert rest k v

/-- Python dict lookup `d[k]` as an option (first binding for the key; the
dicts built by `dictInsert` have unique keys). -/
def dictGet? : PyDict → String → Option String
  | [], _ => none
  | (k', v) :: rest, k => if k' = k then some v else dictGet? rest k

/-- Python dict lookup `d[k]`, raising KeyError when the key is absent. -/
def dictGetE (d : PyDict) (k : String) : Except PyErr String :=
  match dictGet? d k with
  | some v => Except.ok v
  | none => Except.error (PyErr.keyError k)

/-- The loop of source lines 101-103:
`for i in range(len(hetcol_list)): hetdict[hetcol_list[i]] = hetval_list[i]`.
Iterates over the header tokens; raises IndexError as soon as the value list
runs out (at `i = len(hetval_list)`); surplus value tokens are ignored. -/
def buildHetdict : PyDict → List String → List String → Except PyErr PyDict
  | d, [], _ => Except.ok d
  | _, _ :: _, [] => Except.error PyErr.indexError
  | d, c :: cs, v :: vs => buildHetdict (dictInsert d c v) cs vs

/-- The value paired with the last occurrence of a key in a pair list (used
to specify which value a duplicated header token ends up with). -/
def lastLookup (k : String) : List (String × String) → Option String
  | [] => none
  | (k', v) :: rest =>
    match lastLookup k rest with
    | some v' => some v'
    | none => if k' = k then some v else none

/-- The ASCII whitespace stripped by Python 2 `str.strip()`. -/
def isPySpace (c : Char) : Bool :=
  c = ' ' || c = '\t' || c = '\n' || c = '\r' || c = '\x0b' || c = '\x0c'

/-- Python `s.strip()`: drop leading and trailing whitespace. -/
def pyStrip (s : String) : String :=
  String.mk (((s.data.dropWhile isPySpace).reverse.dropWhile isPySpace).reverse)

/-- Helper for `pySplitTab`: split a character list on tabs, keeping empty
fields, with `cur` holding the current field reversed. -/
def splitTabAux : List Char → List Char → List String
  | [], cur => [String.mk cur.reverse]
  | c :: cs, cur =>
    if c = '\t' then String.mk cur.reverse :: splitTabAux cs [] else splitTabAux cs (c :: cur)

/-- Python `s.split('\t')`: split on every tab, keeping empty fields; the
empty string yields `[""]`. -/
def pySplitTab (s : String) : List String :=
  splitTabAux s.data []

/-- Characters of the first line of a file, including its newline
(Python `file.readline()`). -/
def takeLine : List Char → List Char
  | [] => []
  | c :: cs => if c = '\n' then [c] else c :: takeLine cs

/-- Characters remaining after the first line of a file. -/
def dropLine : List Char → List Char
  | [] => []
  | c :: cs => if c = '\n' then cs else dropLine cs

/-- The first `readline()` on a file with the given contents. -/
def readline1 (s : String) : String :=
  String.mk (takeLine s.data)

/-- The second `readline()` on a file with the given contents. -/
def readline2 (s : String) : String :=
  String.mk (takeLine (dropLine s.data))

/-- Source lines 99-103 applied to the two lines read from the metrics file:
strip and tab-split each line, then fold the header/value tokens into a dict. -/
def parseHetLines (hetcolumns hetvalues : String) : Except PyErr PyDict :=
  buildHetdict [] (pySplitTab (pyStrip hetcolumns)) (pySplitTab (pyStrip hetvalues))

/-- Source lines 95-103: read the first two lines of the heterogeneity
metrics file and parse them into `hetdict`. -/
def extractHetMetricsFile (content : String) : Except PyErr PyDict :=
  parseHetLines (readline1 content) (readline2 content)

/-- The header tokens of the metrics file (first line, stripped, tab-split). -/
def hetCols (content : String) : List String :=
  pySplitTab (pyStrip (readline1 content))

/-- The value tokens of the metrics file (second line, stripped, tab-split). -/
def hetVals (content : String) : List String :=
  pySplitTab (pyStrip (readline2 content))

/-- The run parameters taken from the `context` argument of `run_algorithm`. -/
structure Context where
  slide : String
  region : String
  branch : String
  force : Bool

/-- The data store collaborator, as an oracle giving the response of each
remote operation as a function of its arguments. -/
structure Datastore where
  get_pathology_result_image_path : String → String → String → String → PyVal
  get_instance : PyVal → String → String → String → Int
  get_pathology_result_path : String → String → String → String → String
  post_instance : String → String → String → String → Bool → Int
  get_pathology_primary_path : String → String → String → String

/-- The remaining environment of one run: the exit code
`subprocess.check_call` observes for each command string, and the contents
the workspace file read on source line 95 turns out to have. -/
structure World where
  runProcess : String → Int
  readFile : String → String

/-- What one run did to the outside world: the subprocess command strings
executed, in order, and the local file names passed to `post_instance`, in
order. -/
structure Trace where
  processes : List String
  publishes : List String
  deriving DecidableEq

/-- The value returned by `run_algorithm`: the two-field mapping
`{ 'result': ..., 'status': ... }`.  The status field is a `PyVal` because
the (dead) return of source line 24 would place the looked-up path there. -/
structure RunResult where
  result : PyDict
  status : PyVal
  deriving DecidableEq

/-- Source line 26: `'quant_%s.csv' % context['region']`. -/
def quantCsv (region : String) : String := "quant_" ++ region ++ ".csv"

/-- Source line 33: the thresholds file name. -/
def thresholdsCsv (region : String) : String := "quant_" ++ region ++ ".csv.thresholds.txt"

/-- Source line 34: the marker-states file name. -/
def markerStatesCsv (region : String) : String := "quant_" ++ region ++ ".csv.MarkerStates.txt"

/-- Source line 35: the marker-index file name. -/
def markerIndexCsv (region : String) : String := "quant_" ++ region ++ ".csv.MarkerIndex.txt"

/-- Source line 36: the heterogeneity output file name. -/
def heterogeneityCsv (region : String) : String := "out_moha_" ++ region ++ ".txt"

/-- Source line 41: the threshold-stage command string. -/
def thresholdCmd (region : String) : String :=
  "java -jar MOHAtool.jar -computeThresholds=data/quant_" ++ region ++
    ".csv -biomarkerMetricTag=_Cell_Mean"

/-- Source line 63: the cell-state-stage command string. -/
def cellStatesCmd (region : String) : String :=
  "java -jar MOHAtool.jar -computeCellStates=data/quant_" ++ region ++
    ".csv -thresholdFile=data/quant_" ++ region ++ ".csv.thresholds.txt"

/-- Source line 80: the heterogeneity-stage command string. -/
def heterogeneityCmd (region : String) : String :=
  "java -jar MOHAtool.jar -computeHeterogeneity=data/quant_" ++ region ++
    ".csv.MarkerStates.txt -outputFile=data/out_moha_" ++ region ++ ".txt -append=false"

/-- The contents of the metrics file the run would read on source line 95. -/
def hetFileContent (ctx : Context) (w : World) : String :=
  w.readFile ("/rt106/data/" ++ heterogeneityCsv ctx.region)

/-- Source lines 105-114: compute the nuclear image path and build
`result_context` from `hetdict`.  `hetdict` is `none` when the parse block of
lines 94-103 was skipped because the status was not
EXECUTION_FINISHED_SUCCESS; referencing it then raises the unbound-local
error.  Each `hetdict[...]` lookup may raise KeyError. -/
def resultContext (ds : Datastore) (ctx : Context) (hetdict : Option PyDict)
    (status : String) (tr : Trace) : Except PyErr RunResult × Trace :=
  let nuclear_image_path := ds.get_pathology_primary_path ctx.slide ctx.region "DAPI"
  match hetdict with
  | none => (Except.error (PyErr.nameError "hetdict"), tr)
  | some hd =>
    match dictGetE hd "CellFamily_Heterogeneity" with
    | Except.error e => (Except.error e, tr)
    | Except.ok v1 =>
      match dictGetE hd "CellSocial_Heterogeneity" with
      | Except.error e => (Except.error e, tr)
      | Except.ok v2 =>
        match dictGetE hd "Molecular_Heterogeneity" with
        | Except.error e => (Except.error e, tr)
        | Except.ok v3 =>
          (Except.ok ⟨[("nuclearImage", nuclear_image_path),
                       ("CellFamily_Heterogeneity", v1),
                       ("CellSocial_Heterogeneity", v2),
                       ("Molecular_Heterogeneity", v3)], PyVal.str status⟩, tr)

/-- Source lines 93-114: parse the metrics file when the status is
EXECUTION_FINISHED_SUCCESS (leaving `hetdict` unbound otherwise), then build
and return the result structure. -/
def metricsTail (ds : Datastore) (ctx : Context) (w : World)
    (status : String) (tr : Trace) : Except PyErr RunResult × Trace :=
  if status = "EXECUTION_FINISHED_SUCCESS" then
    match extractHetMetricsFile (hetFileContent ctx w) with
    | Except.error e => (Except.error e, tr)
    | Except.ok hetdict => resultContext ds ctx (some hetdict) status tr
  else
    resultContext ds ctx none status tr

/-- Source lines 77-91: run the heterogeneity stage when the status is still
EXECUTION_FINISHED_SUCCESS; a non-zero exit returns immediately with
EXECUTION_FINISHED_ERROR, otherwise the output file is published and control
falls through to the metrics tail. -/
def afterCellStates (ds : Datastore) (ctx : Context) (w : World)
    (MOHA_path : String) (status : String) (tr : Trace) : Except PyErr RunResult × Trace :=
  if status = "EXECUTION_FINISHED_SUCCESS" then
    if w.runProcess (heterogeneityCmd ctx.region) ≠ 0 then
      (Except.ok ⟨[], PyVal.str "EXECUTION_FINISHED_ERROR"⟩,
        ⟨tr.processes ++ [heterogeneityCmd ctx.region], tr.publishes⟩)
    else
      let response_heterogeneity_upload :=
        ds.post_instance MOHA_path "/rt106/data" (heterogeneityCsv ctx.region) "csv" ctx.force
      metricsTail ds ctx w status
        ⟨tr.processes ++ [heterogeneityCmd ctx.region],
         tr.publishes ++ [heterogeneityCsv ctx.region]⟩
  else
    metricsTail ds ctx w status tr

/-- Source lines 60-91: run the cell-state stage when the status is
EXECUTION_FINISHED_SUCCESS (it is EXECUTION_ERROR exactly when the threshold
publish returned 403); a non-zero exit returns immediately with
EXECUTION_FINISHED_ERROR; on success the two output files are published with
their response codes never inspected. -/
def afterThreshold (ds : Datastore) (ctx : Context) (w : World)
    (MOHA_path : String) (status : String) : Except PyErr RunResult × Trace :=
  if status = "EXECUTION_FINISHED_SUCCESS" then
    if w.runProcess (cellStatesCmd ctx.region) ≠ 0 then
      (Except.ok ⟨[], PyVal.str "EXECUTION_FINISHED_ERROR"⟩,
        ⟨[thresholdCmd ctx.region, cellStatesCmd ctx.region], [thresholdsCsv ctx.region]⟩)
    else
      let response_markerstates_upload :=
        ds.post_instance MOHA_path "/rt106/data" (markerStatesCsv ctx.region) "csv" ctx.force
      let response_markerindex_upload :=
        ds.post_instance MOHA_path "/rt106/data" (markerIndexCsv ctx.region) "csv" ctx.force
      afterCellStates ds ctx w MOHA_path status
        ⟨[thresholdCmd ctx.region, cellStatesCmd ctx.region],
         [thresholdsCsv ctx.region, markerStatesCsv ctx.region, markerIndexCsv ctx.region]⟩
  else
    afterCellStates ds ctx w MOHA_path status
      ⟨[thresholdCmd ctx.region], [thresholdsCsv ctx.region]⟩

/-- The embedding of `run_algorithm` (source lines 13-114).  The initial
workspace clearing (lines 17-18) and the logging calls have no observable
effect in the model.  Returns the Python return value (or the escaping
exception) together with the trace of subprocess executions and publish
calls. -/
def run_algorithm (ds : Datastore) (ctx : Context) (w : World) :
    Except PyErr RunResult × Trace :=
  let cell_quant_path := ds.get_pathology_result_image_path ctx.slide ctx.region ctx.branch "Quant"
  if quantNotFoundCheck cell_quant_path then
    (Except.ok ⟨[], cell_quant_path⟩, ⟨[], []⟩)
  else if ds.get_instance cell_quant_path "/rt106/data" (quantCsv ctx.region) "csv" ≠ 200 then
    (Except.ok ⟨[], PyVal.str "ERROR_QUANT_FILE_NOT_FOUND"⟩, ⟨[], []⟩)
  else
    let MOHA_path := ds.get_pathology_result_path ctx.slide ctx.region ctx.branch "MOHA"
    if w.runProcess (thresholdCmd ctx.region) ≠ 0 then
      (Except.ok ⟨[], PyVal.str "EXECUTION_FINISHED_ERROR"⟩, ⟨[thresholdCmd ctx.region], []⟩)
    else
      let response_threshold_upload :=
        ds.post_instance MOHA_path "/rt106/data" (thresholdsCsv ctx.region) "csv" ctx.force
      let status1 :=
        if response_threshold_upload = 403 then "EXECUTION_ERROR" else "EXECUTION_FINISHED_SUCCESS"
      afterThreshold ds ctx w MOHA_path status1

/-! ### Basic lemmas about the guard and the dict model -/

/-- The guard of source line 22 is false for every value: `type(x)` is a type
object and never equals the string "int". -/
theorem quantNotFoundCheck_false (p : PyVal) : quantNotFoundCheck p = false := by
  cases p <;> rfl

theorem dictGet?_insert_self (d : PyDict) (k v : String) :
    dictGet? (dictInsert d k v) k = some v := by
  induction d with
  | nil => simp [dictInsert, dictGet?]
  | cons p rest ih =>
    obtain ⟨k', v'⟩ := p
    by_cases h : k' = k
    · simp [dictInsert, dictGet?, h]
    · simp [dictInsert, dictGet?, h, ih]

theorem dictGet?_insert_ne (d : PyDict) (c v k : String) (h : c ≠ k) :
    dictGet? (dictInsert d c v) k = dictGet? d k := by
  induction d with
  | nil => simp [dictInsert, dictGet?, h]
  | cons p rest ih =>
    obtain ⟨k', v'⟩ := p
    by_cases hk : k' = c
    · subst hk; simp [dictInsert, dictGet?, h]
    · simp [dictInsert, dictGet?, hk, ih]

theorem buildHetdict_err (cols vals : List String) (d0 : PyDict)
    (h : vals.length < cols.length) :
    buildHetdict d0 cols vals = Except.error PyErr.indexError := by
  induction cols generalizing vals d0 with
  | nil => simp at h
  | cons c cs ih =>
    cases vals with
    | nil => rfl
    | cons v vs =>
      exact ih vs (dictInsert d0 c v) (by simp only [List.length_cons] at h; omega)

theorem buildHetdict_ok (cols vals : List String) (d0 : PyDict)
    (h : cols.length ≤ vals.length) :
    ∃ d, buildHetdict d0 cols vals = Except.ok d := by
  induction cols generalizing vals d0 with
  | nil => exact ⟨d0, rfl⟩
  | cons c cs ih =>
    cases vals with
    | nil => simp at h
    | cons v vs =>
      exact ih vs (dictInsert d0 c v) (by simp only [List.length_cons] at h; omega)

theorem lastLookup_cons (k k' v : String) (rest : List (String × String)) :
    lastLookup k ((k', v) :: rest) =
      match lastLookup k rest with
      | some v' => some v'
      | none => if k' = k then some v else none := rfl

theorem buildHetdict_get_aux (cols vals : List String) (d0 d : PyDict)
    (hok : buildHetdict d0 cols vals = Except.ok d) (k : String) :
    dictGet? d k =
      match lastLookup k (cols.zip vals) with
      | some v => some v
      | none => dictGet? d0 k := by
  induction cols generalizing vals d0 with
  | nil =>
    simp only [buildHetdict, Except.ok.injEq] at hok
    subst hok
    simp [lastLookup]
  | cons c cs ih =>
    cases vals with
    | nil => simp [buildHetdict] at hok
    | cons v vs =>
      have hstep := ih vs (dictInsert d0 c v) hok
      rw [hstep, List.zip_cons_cons, lastLookup_cons]
      cases hl : lastLookup k (cs.zip vs) with
      | some v' => rfl
      | none =>
        by_cases hck : c = k
        · subst hck; simp [dictGet?_insert_self]
        · simp [hck, dictGet?_insert_ne d0 c v k hck]

theorem buildHetdict_get (cols vals : List String) (d : PyDict)
    (hok : buildHetdict [] cols vals = Except.ok d) (k : String) :
    dictGet? d k = lastLookup k (cols.zip vals) := by
  rw [buildHetdict_get_aux cols vals [] d hok k]
  cases lastLookup k (cols.zip vals) <;> simp [dictGet?]

theorem lastLookup_isSome (k : String) (l : List (String × String)) :
    (lastLookup k l).isSome = true ↔ k ∈ l.map Prod.fst := by
  induction l with
  | nil => simp [lastLookup]
  | cons p rest ih =>
    obtain ⟨k', v⟩ := p
    simp only [lastLookup, List.map_cons, List.mem_cons]
    cases hl : lastLookup k rest with
    | some v' =>
      rw [hl] at ih
      simp only [Option.isSome_some, true_iff] at ih
      simp [ih]
    | none =>
      rw [hl] at ih
      simp only [Option.isSome_none, Bool.false_eq_true, false_iff] at ih
      by_cases hk : k' = k
      · subst hk; simp
      · simp only [Option.isSome_none, Bool.false_eq_true, false_iff, if_neg hk]
        intro hcon
        rcases hcon with hcon | hcon
        · exact hk hcon.symm
        · exact ih hcon

theorem lastLookup_mem (k v : String) (l : List (String × String))
    (h : lastLookup k l = some v) : (k, v) ∈ l := by
  induction l with
  | nil => simp [lastLookup] at h
  | cons p rest ih =>
    obtain ⟨k', v'⟩ := p
    simp only [lastLookup] at h
    cases hl : lastLookup k rest with
    | some w =>
      rw [hl] at h
      obtain rfl : w = v := Option.some.inj h
      exact List.mem_cons_of_mem _ (ih hl)
    | none =>
      rw [hl] at h
      by_cases hk : k' = k
      · rw [if_pos hk] at h
        obtain rfl : v' = v := Option.some.inj h
        subst hk
        exact List.mem_cons_self _ _
      · rw [if_neg hk] at h
        exact absurd h (by simp)

theorem buildHetdict_mem (cols vals : List String) (d : PyDict)
    (hok : buildHetdict [] cols vals = Except.ok d)
    (hlen : cols.length ≤ vals.length) (k : String) (hk : k ∈ cols) :
    ∃ v, dictGet? d k = some v ∧ v ∈ vals := by
  have hmap : (cols.zip vals).map Prod.fst = cols := List.map_fst_zip cols vals hlen
  have hsome : (lastLookup k (cols.zip vals)).isSome = true := by
    rw [lastLookup_isSome, hmap]; exact hk
  obtain ⟨v, hv⟩ := Option.isSome_iff_exists.mp hsome
  refine ⟨v, ?_, ?_⟩
  · rw [buildHetdict_get cols vals d hok k, hv]
  · exact (List.of_mem_zip (lastLookup_mem k v _ hv)).2

theorem buildHetdict_not_mem (cols vals : List String) (d : PyDict)
    (hok : buildHetdict [] cols vals = Except.ok d) (k : String) (hk : k ∉ cols) :
    dictGet? d k = none := by
  rw [buildHetdict_get cols vals d hok k]
  cases hl : lastLookup k (cols.zip vals) with
  | none => rfl
  | some v => exact absurd ((List.of_mem_zip (lastLookup_mem k v _ hl)).1) hk

/-! ### File names produced for one region are pairwise distinct -/

theorem append_ne_of_len (p1 s1 p2 s2 : String)
    (h : p1.length + s1.length ≠ p2.length + s2.length) (r : String) :
    p1 ++ r ++ s1 ≠ p2 ++ r ++ s2 := by
  intro he
  apply h
  have hl := congrArg String.length he
  simp only [String.length_append] at hl
  omega

theorem thresholdsCsv_ne_markerStatesCsv (r : String) :
    thresholdsCsv r ≠ markerStatesCsv r :=
  append_ne_of_len "quant_" ".csv.thresholds.txt" "quant_" ".csv.MarkerStates.txt" (by decide) r

theorem markerIndexCsv_ne_markerStatesCsv (r : String) :
    markerIndexCsv r ≠ markerStatesCsv r :=
  append_ne_of_len "quant_" ".csv.MarkerIndex.txt" "quant_" ".csv.MarkerStates.txt" (by decide) r

theorem heterogeneityCsv_ne_markerStatesCsv (r : String) :
    heterogeneityCsv r ≠ markerStatesCsv r :=
  append_ne_of_len "out_moha_" ".txt" "quant_" ".csv.MarkerStates.txt" (by decide) r

theorem thresholdsCsv_ne_markerIndexCsv (r : String) :
    thresholdsCsv r ≠ markerIndexCsv r :=
  append_ne_of_len "quant_" ".csv.thresholds.txt" "quant_" ".csv.MarkerIndex.txt" (by decide) r

theorem markerStatesCsv_ne_markerIndexCsv (r : String) :
    markerStatesCsv r ≠ markerIndexCsv r :=
  append_ne_of_len "quant_" ".csv.MarkerStates.txt" "quant_" ".csv.MarkerIndex.txt" (by decide) r

theorem heterogeneityCsv_ne_markerIndexCsv (r : String) :
    heterogeneityCsv r ≠ markerIndexCsv r :=
  append_ne_of_len "out_moha_" ".txt" "quant_" ".csv.MarkerIndex.txt" (by decide) r

/-! ### Reduction lemmas for the pipeline -/

/-- With a successful fetch, a zero threshold exit and a non-403 threshold
publish, the run reaches the cell-state stage with status
EXECUTION_FINISHED_SUCCESS. -/
theorem run_to_afterThreshold (ds : Datastore) (ctx : Context) (w : World)
    (h200 : ds.get_instance
        (ds.get_pathology_result_image_path ctx.slide ctx.region ctx.branch "Quant")
        "/rt106/data" (quantCsv ctx.region) "csv" = 200)
    (h1 : w.runProcess (thresholdCmd ctx.region) = 0)
    (hpost : ds.post_instance
        (ds.get_pathology_result_path ctx.slide ctx.region ctx.branch "MOHA")
        "/rt106/data" (thresholdsCsv ctx.region) "csv" ctx.force ≠ 403) :
    run_algorithm ds ctx w =
      afterThreshold ds ctx w
        (ds.get_pathology_result_path ctx.slide ctx.region ctx.branch "MOHA")
        "EXECUTION_FINISHED_SUCCESS" := by
  simp [run_algorithm, quantNotFoundCheck_false, h200, h1, hpost]

/-- Additionally assuming a zero cell-state exit, the run reaches the
heterogeneity stage with the first two commands and three publishes traced. -/
theorem run_to_afterCellStates (ds : Datastore) (ctx : Context) (w : World)
    (h200 : ds.get_instance
        (ds.get_pathology_result_image_path ctx.slide ctx.region ctx.branch "Quant")
        "/rt106/data" (quantCsv ctx.region) "csv" = 200)
    (h1 : w.runProcess (thresholdCmd ctx.region) = 0)
    (hpost : ds.post_instance
        (ds.get_pathology_result_path ctx.slide ctx.region ctx.branch "MOHA")
        "/rt106/data" (thresholdsCsv ctx.region) "csv" ctx.force ≠ 403)
    (h2 : w.runProcess (cellStatesCmd ctx.region) = 0) :
    run_algorithm ds ctx w =
      afterCellStates ds ctx w
        (ds.get_pathology_result_path ctx.slide ctx.region ctx.branch "MOHA")
        "EXECUTION_FINISHED_SUCCESS"
        ⟨[thresholdCmd ctx.region, cellStatesCmd ctx.region],
         [thresholdsCsv ctx.region, markerStatesCsv ctx.region, markerIndexCsv ctx.region]⟩ := by
  rw [run_to_afterThreshold ds ctx w h200 h1 hpost]
  simp [afterThreshold, h2]

/-- Additionally assuming a zero heterogeneity exit, the run reaches the
metrics tail with all three commands and all four publishes traced. -/
theorem run_to_metricsTail (ds : Datastore) (ctx : Context) (w : World)
    (h200 : ds.get_instance
        (ds.get_pathology_result_image_path ctx.slide ctx.region ctx.branch "Quant")
        "/rt106/data" (quantCsv ctx.region) "csv" = 200)
    (h1 : w.runProcess (thresholdCmd ctx.region) = 0)
    (hpost : ds.post_instance
        (ds.get_pathology_result_path ctx.slide ctx.region ctx.branch "MOHA")
        "/rt106/data" (thresholdsCsv ctx.region) "csv" ctx.force ≠ 403)
    (h2 : w.runProcess (cellStatesCmd ctx.region) = 0)
    (h3 : w.runProcess (heterogeneityCmd ctx.region) = 0) :
    run_algorithm ds ctx w =
      metricsTail ds ctx w "EXECUTION_FINISHED_SUCCESS"
        ⟨[thresholdCmd ctx.region, cellStatesCmd ctx.region, heterogeneityCmd ctx.region],
         [thresholdsCsv ctx.region, markerStatesCsv ctx.region, markerIndexCsv ctx.region,
          heterogeneityCsv ctx.region]⟩ := by
  rw [run_to_afterCellStates ds ctx w h200 h1 hpost h2]
  simp [afterCellStates, h3]

/-- `resultContext` returns its trace argument unchanged. -/
theorem resultContext_snd (ds : Datastore) (ctx : Context) (hd : Option PyDict)
    (status : String) (tr : Trace) : (resultContext ds ctx hd status tr).2 = tr := by
  cases hd with
  | none => rfl
  | some d =>
    cases h1 : dictGetE d "CellFamily_Heterogeneity" with
    | error e => simp [resultContext, h1]
    | ok v1 =>
      cases h2 : dictGetE d "CellSocial_Heterogeneity" with
      | error e => simp [resultContext, h1, h2]
      | ok v2 =>
        cases h3 : dictGetE d "Molecular_Heterogeneity" with
        | error e => simp [resultContext, h1, h2, h3]
        | ok v3 => simp [resultContext, h1, h2, h3]

/-- `metricsTail` returns its trace argument unchanged. -/
theorem metricsTail_snd (ds : Datastore) (ctx : Context) (w : World)
    (status : String) (tr : Trace) : (metricsTail ds ctx w status tr).2 = tr := by
  unfold metricsTail
  split
  · cases extractHetMetricsFile (hetFileContent ctx w) with
    | error e => rfl
    | ok d => exact resultContext_snd ds ctx (some d) status tr
  · exact resultContext_snd ds ctx none status tr

/-- When the metrics file has at least as many value tokens as header tokens
and its header contains the three required keys, the metrics tail of a fully
successful run returns the four-entry result with the three metric values
taken from the value row. -/
theorem metricsTail_success_of_keys (ds : Datastore) (ctx : Context) (w : World) (tr : Trace)
    (hlen : (hetCols (hetFileContent ctx w)).length ≤ (hetVals (hetFileContent ctx w)).length)
    (hk1 : "CellFamily_Heterogeneity" ∈ hetCols (hetFileContent ctx w))
    (hk2 : "CellSocial_Heterogeneity" ∈ hetCols (hetFileContent ctx w))
    (hk3 : "Molecular_Heterogeneity" ∈ hetCols (hetFileContent ctx w)) :
    ∃ v1 v2 v3, v1 ∈ hetVals (hetFileContent ctx w) ∧ v2 ∈ hetVals (hetFileContent ctx w) ∧
      v3 ∈ hetVals (hetFileContent ctx w) ∧
      metricsTail ds ctx w "EXECUTION_FINISHED_SUCCESS" tr =
        (Except.ok ⟨[("nuclearImage", ds.get_pathology_primary_path ctx.slide ctx.region "DAPI"),
                     ("CellFamily_Heterogeneity", v1),
                     ("CellSocial_Heterogeneity", v2),
                     ("Molecular_Heterogeneity", v3)],
                    PyVal.str "EXECUTION_FINISHED_SUCCESS"⟩, tr) := by
  obtain ⟨d, hd⟩ :=
    buildHetdict_ok (hetCols (hetFileContent ctx w)) (hetVals (hetFileContent ctx w)) [] hlen
  obtain ⟨v1, hv1, hm1⟩ := buildHetdict_mem _ _ d hd hlen _ hk1
  obtain ⟨v2, hv2, hm2⟩ := buildHetdict_mem _ _ d hd hlen _ hk2
  obtain ⟨v3, hv3, hm3⟩ := buildHetdict_mem _ _ d hd hlen _ hk3
  refine ⟨v1, v2, v3, hm1, hm2, hm3, ?_⟩
  have hex : extractHetMetricsFile (hetFileContent ctx w) = Except.ok d := hd
  simp [metricsTail, hex, resultContext, dictGetE, hv1, hv2, hv3]

/-! ### Concrete instantiations used in witnesses and counterexamples -/

/-- A run context used for concrete evaluations. -/
def ctx1 : Context := ⟨"slide1", "r", "main", true⟩

/-- A second run context with a different region. -/
def ctx2 : Context := ⟨"slide2", "reg2", "dev", false⟩

/-- A well-formed metrics file: the three required keys and three values. -/
def goodHetFile : String :=
  "CellFamily_Heterogeneity\tCellSocial_Heterogeneity\tMolecular_Heterogeneity\n0.1\t0.2\t0.3\n"

/-- A metrics file missing the Molecular_Heterogeneity column. -/
def badHetFile : String :=
  "CellFamily_Heterogeneity\tCellSocial_Heterogeneity\n0.1\t0.2\n"

/-- A world in which every subprocess exits 0 and the metrics file is well
formed. -/
def wGood : World := ⟨fun _ => 0, fun _ => goodHetFile⟩

/-- A world in which every subprocess exits 0 but the metrics file lacks a
required key. -/
def wBadFile : World := ⟨fun _ => 0, fun _ => badHetFile⟩

/-- A world in which the cell-state stage exits 7 and the other stages exit 0. -/
def wStage2Fails : World :=
  ⟨fun c => if c = cellStatesCmd "r" then 7 else 0, fun _ => goodHetFile⟩

/-- A data store that answers every call successfully. -/
def dsGood : Datastore :=
  ⟨fun _ _ _ _ => PyVal.str "/patients/p1/quant.csv",
   fun _ _ _ _ => 200,
   fun _ _ _ _ => "/patients/p1/moha",
   fun _ _ _ _ _ => 200,
   fun _ _ _ => "/patients/p1/dapi.tif"⟩

/-- Like `dsGood` but every publish is forbidden (403). -/
def dsForbidden : Datastore := { dsGood with post_instance := fun _ _ _ _ _ => 403 }

/-- Like `dsGood` but the path lookup returns the integer 404: the not-found
sentinel that the guard of source line 22 tries (and fails) to detect. -/
def dsLookup404 : Datastore :=
  { dsGood with get_pathology_result_image_path := fun _ _ _ _ => PyVal.int 404 }

/-- Like `dsGood` but fetching the quantification table fails with 404. -/
def dsFetch404 : Datastore := { dsGood with get_instance := fun _ _ _ _ => 404 }

/-- Like `dsGood` but the two cell-state publishes are forbidden (403). -/
def dsMarkerForbidden : Datastore :=
  { dsGood with post_instance := fun _ _ n _ _ =>
      if n = markerStatesCsv "r" ∨ n = markerIndexCsv "r" then 403 else 200 }

/-- Like `dsMarkerForbidden` but the two cell-state publishes answer 500. -/
def dsMarkerError : Datastore :=
  { dsGood with post_instance := fun _ _ n _ _ =>
      if n = markerStatesCsv "r" ∨ n = markerIndexCsv "r" then 500 else 200 }

/-- A world in which the threshold stage exits 2 and the other stages exit 0. -/
def wStage1Fails : World :=
  ⟨fun c => if c = thresholdCmd "r" then 2 else 0, fun _ => goodHetFile⟩

/-- A world in which the heterogeneity stage exits 3 and the other stages
exit 0. -/
def wStage3Fails : World :=
  ⟨fun c => if c = heterogeneityCmd "r" then 3 else 0, fun _ => goodHetFile⟩

/-! ### The claims -/

/-- Claim C1: every invocation of run_algorithm that returns yields a
two-field mapping with an enumerated status, and every execution path
(including the threshold-publish-403 path) reaches such a return.  REFUTED on
the 403 path: with a successful fetch, a zero threshold exit and a 403
threshold publish, run_algorithm does not return at all — the skipped parse
block leaves `hetdict` unbound and line 109 of the source raises the
unbound-local error while building `result_context`. -/
theorem claim_C1 :
    (run_algorithm dsForbidden ctx2 wGood).1 = Except.error (PyErr.nameError "hetdict") := rfl

/-- Claim C2: on a 403 threshold publish, neither the cell-state nor the
heterogeneity process runs (the trace holds only the threshold command and
the threshold publish) — that half holds — but the run does NOT return
status EXECUTION_ERROR with an empty result: it raises the unbound-local
error on `hetdict` instead of reaching the final return. -/
theorem claim_C2 :
    run_algorithm dsForbidden ctx1 wGood =
      (Except.error (PyErr.nameError "hetdict"),
       ⟨[thresholdCmd "r"], [thresholdsCsv "r"]⟩) ∧
    cellStatesCmd "r" ∉ (run_algorithm dsForbidden ctx1 wGood).2.processes ∧
    heterogeneityCmd "r" ∉ (run_algorithm dsForbidden ctx1 wGood).2.processes :=
  ⟨rfl, by decide, by decide⟩

/-- Claim C3: for every stage, a non-zero exit of that stage's process makes
run_algorithm return immediately with status EXECUTION_FINISHED_ERROR and an
empty result, with no later stage process invoked and no later publish call
made (the returned trace stops at the failing stage). -/
theorem claim_C3 (ds : Datastore) (ctx : Context) (w : World)
    (h200 : ds.get_instance
        (ds.get_pathology_result_image_path ctx.slide ctx.region ctx.branch "Quant")
        "/rt106/data" (quantCsv ctx.region) "csv" = 200) :
    (w.runProcess (thresholdCmd ctx.region) ≠ 0 →
      run_algorithm ds ctx w =
        (Except.ok ⟨[], PyVal.str "EXECUTION_FINISHED_ERROR"⟩,
         ⟨[thresholdCmd ctx.region], []⟩)) ∧
    (w.runProcess (thresholdCmd ctx.region) = 0 →
      ds.post_instance (ds.get_pathology_result_path ctx.slide ctx.region ctx.branch "MOHA")
        "/rt106/data" (thresholdsCsv ctx.region) "csv" ctx.force ≠ 403 →
      w.runProcess (cellStatesCmd ctx.region) ≠ 0 →
      run_algorithm ds ctx w =
        (Except.ok ⟨[], PyVal.str "EXECUTION_FINISHED_ERROR"⟩,
         ⟨[thresholdCmd ctx.region, cellStatesCmd ctx.region], [thresholdsCsv ctx.region]⟩)) ∧
    (w.runProcess (thresholdCmd ctx.region) = 0 →
      ds.post_instance (ds.get_pathology_result_path ctx.slide ctx.region ctx.branch "MOHA")
        "/rt106/data" (thresholdsCsv ctx.region) "csv" ctx.force ≠ 403 →
      w.runProcess (cellStatesCmd ctx.region) = 0 →
      w.runProcess (heterogeneityCmd ctx.region) ≠ 0 →
      run_algorithm ds ctx w =
        (Except.ok ⟨[], PyVal.str "EXECUTION_FINISHED_ERROR"⟩,
         ⟨[thresholdCmd ctx.region, cellStatesCmd ctx.region, heterogeneityCmd ctx.region],
          [thresholdsCsv ctx.region, markerStatesCsv ctx.region, markerIndexCsv ctx.region]⟩)) := by
  refine ⟨?_, ?_, ?_⟩
  · intro hf
    simp [run_algorithm, quantNotFoundCheck_false, h200, hf]
  · intro h1 hpost hf
    rw [run_to_afterThreshold ds ctx w h200 h1 hpost]
    simp [afterThreshold, hf]
  · intro h1 hpost h2 hf
    rw [run_to_afterCellStates ds ctx w h200 h1 hpost h2]
    simp [afterCellStates, hf]

/-- Witness for C3: the three failure shapes realized at concrete inputs
(threshold fails with exit 2, cell-state fails with exit 7, heterogeneity
fails with exit 3). -/
theorem claim_C3_witness :
    run_algorithm dsGood ctx1 wStage1Fails =
      (Except.ok ⟨[], PyVal.str "EXECUTION_FINISHED_ERROR"⟩, ⟨[thresholdCmd "r"], []⟩) ∧
    run_algorithm dsGood ctx1 wStage2Fails =
      (Except.ok ⟨[], PyVal.str "EXECUTION_FINISHED_ERROR"⟩,
       ⟨[thresholdCmd "r", cellStatesCmd "r"], [thresholdsCsv "r"]⟩) ∧
    run_algorithm dsGood ctx1 wStage3Fails =
      (Except.ok ⟨[], PyVal.str "EXECUTION_FINISHED_ERROR"⟩,
       ⟨[thresholdCmd "r", cellStatesCmd "r", heterogeneityCmd "r"],
        [thresholdsCsv "r", markerStatesCsv "r", markerIndexCsv "r"]⟩) :=
  ⟨(claim_C3 dsGood ctx1 wStage1Fails rfl).1 (by decide),
   (claim_C3 dsGood ctx1 wStage2Fails rfl).2.1 (by decide) (by decide) (by decide),
   (claim_C3 dsGood ctx1 wStage3Fails rfl).2.2 (by decide) (by decide) (by decide) (by decide)⟩

/-- Counterexample to claim C4 as stated: the data store path lookup returns
the integer 404 — exactly the "not found" sentinel (an int above 200) that
the guard of source line 22 tries to detect — yet run_algorithm does not
return ERROR_QUANT_FILE_NOT_FOUND: the dead guard lets the run continue, all
three stage processes execute, and the run finishes with
EXECUTION_FINISHED_SUCCESS. -/
theorem claim_C4_counterexample :
    run_algorithm dsLookup404 ctx1 wGood =
      (Except.ok ⟨[("nuclearImage", "/patients/p1/dapi.tif"),
                   ("CellFamily_Heterogeneity", "0.1"),
                   ("CellSocial_Heterogeneity", "0.2"),
                   ("Molecular_Heterogeneity", "0.3")],
                  PyVal.str "EXECUTION_FINISHED_SUCCESS"⟩,
       ⟨[thresholdCmd "r", cellStatesCmd "r", heterogeneityCmd "r"],
        [thresholdsCsv "r", markerStatesCsv "r", markerIndexCsv "r", heterogeneityCsv "r"]⟩) := rfl

/-- Claim C4, amended: only the fetch check is effective.  Whenever
get_instance returns a status other than 200, run_algorithm returns
immediately with status ERROR_QUANT_FILE_NOT_FOUND and an empty result,
before any stage process runs and before any publish call (empty trace). -/
theorem claim_C4 (ds : Datastore) (ctx : Context) (w : World)
    (h : ds.get_instance
        (ds.get_pathology_result_image_path ctx.slide ctx.region ctx.branch "Quant")
        "/rt106/data" (quantCsv ctx.region) "csv" ≠ 200) :
    run_algorithm ds ctx w =
      (Except.ok ⟨[], PyVal.str "ERROR_QUANT_FILE_NOT_FOUND"⟩, ⟨[], []⟩) := by
  simp [run_algorithm, quantNotFoundCheck_false, h]

/-- Witness for the amended C4: a 404 fetch at a concrete input. -/
theorem claim_C4_witness :
    run_algorithm dsFetch404 ctx1 wGood =
      (Except.ok ⟨[], PyVal.str "ERROR_QUANT_FILE_NOT_FOUND"⟩, ⟨[], []⟩) :=
  claim_C4 dsFetch404 ctx1 wGood (by decide)

/-- Claim C5: the Input Resolver not-found guard of source line 22 is dead —
for every possible value of the path lookup it evaluates to false, because
`type(x)` yields a type object which never compares equal to the string
literal "int". -/
theorem claim_C5 (p : PyVal) : quantNotFoundCheck p = false :=
  quantNotFoundCheck_false p

/-- Claim C6: end-to-end success.  If the fetch returns 200, all three stage
processes exit 0, the threshold publish is not 403, and the metrics file
header contains the three required keys with value tokens at their positions,
then run_algorithm returns EXECUTION_FINISHED_SUCCESS with a result holding
exactly the keys nuclearImage, CellFamily_Heterogeneity,
CellSocial_Heterogeneity and Molecular_Heterogeneity, the last three being
unmodified tokens of the value row. -/
theorem claim_C6 (ds : Datastore) (ctx : Context) (w : World)
    (h200 : ds.get_instance
        (ds.get_pathology_result_image_path ctx.slide ctx.region ctx.branch "Quant")
        "/rt106/data" (quantCsv ctx.region) "csv" = 200)
    (h1 : w.runProcess (thresholdCmd ctx.region) = 0)
    (hpost : ds.post_instance (ds.get_pathology_result_path ctx.slide ctx.region ctx.branch "MOHA")
        "/rt106/data" (thresholdsCsv ctx.region) "csv" ctx.force ≠ 403)
    (h2 : w.runProcess (cellStatesCmd ctx.region) = 0)
    (h3 : w.runProcess (heterogeneityCmd ctx.region) = 0)
    (hlen : (hetCols (hetFileContent ctx w)).length ≤ (hetVals (hetFileContent ctx w)).length)
    (hk1 : "CellFamily_Heterogeneity" ∈ hetCols (hetFileContent ctx w))
    (hk2 : "CellSocial_Heterogeneity" ∈ hetCols (hetFileContent ctx w))
    (hk3 : "Molecular_Heterogeneity" ∈ hetCols (hetFileContent ctx w)) :
    ∃ v1 v2 v3, v1 ∈ hetVals (hetFileContent ctx w) ∧ v2 ∈ hetVals (hetFileContent ctx w) ∧
      v3 ∈ hetVals (hetFileContent ctx w) ∧
      run_algorithm ds ctx w =
        (Except.ok ⟨[("nuclearImage", ds.get_pathology_primary_path ctx.slide ctx.region "DAPI"),
                     ("CellFamily_Heterogeneity", v1),
                     ("CellSocial_Heterogeneity", v2),
                     ("Molecular_Heterogeneity", v3)],
                    PyVal.str "EXECUTION_FINISHED_SUCCESS"⟩,
         ⟨[thresholdCmd ctx.region, cellStatesCmd ctx.region, heterogeneityCmd ctx.region],
          [thresholdsCsv ctx.region, markerStatesCsv ctx.region, markerIndexCsv ctx.region,
           heterogeneityCsv ctx.region]⟩) := by
  obtain ⟨v1, v2, v3, hm1, hm2, hm3, htail⟩ :=
    metricsTail_success_of_keys ds ctx w
      ⟨[thresholdCmd ctx.region, cellStatesCmd ctx.region, heterogeneityCmd ctx.region],
       [thresholdsCsv ctx.region, markerStatesCsv ctx.region, markerIndexCsv ctx.region,
        heterogeneityCsv ctx.region]⟩ hlen hk1 hk2 hk3
  exact ⟨v1, v2, v3, hm1, hm2, hm3,
    by rw [run_to_metricsTail ds ctx w h200 h1 hpost h2 h3, htail]⟩

/-- Witness for C6: the all-success run at a concrete input. -/
theorem claim_C6_witness :
    ∃ v1 v2 v3, v1 ∈ hetVals (hetFileContent ctx1 wGood) ∧
      v2 ∈ hetVals (hetFileContent ctx1 wGood) ∧ v3 ∈ hetVals (hetFileContent ctx1 wGood) ∧
      run_algorithm dsGood ctx1 wGood =
        (Except.ok ⟨[("nuclearImage", "/patients/p1/dapi.tif"),
                     ("CellFamily_Heterogeneity", v1),
                     ("CellSocial_Heterogeneity", v2),
                     ("Molecular_Heterogeneity", v3)],
                    PyVal.str "EXECUTION_FINISHED_SUCCESS"⟩,
         ⟨[thresholdCmd "r", cellStatesCmd "r", heterogeneityCmd "r"],
          [thresholdsCsv "r", markerStatesCsv "r", markerIndexCsv "r", heterogeneityCsv "r"]⟩) :=
  claim_C6 dsGood ctx1 wGood rfl rfl (by decide) rfl rfl (by decide) (by decide) (by decide)
    (by decide)

/-- Claim C7: round-trip of the metrics parser on a two-line tab-delimited
file with header A, B, C and values 1, 2, 3. -/
theorem claim_C7 :
    extractHetMetricsFile "A\tB\tC\n1\t2\t3\n" =
      Except.ok [("A", "1"), ("B", "2"), ("C", "3")] := rfl

/-- Claim C8: after a successful cell-state stage, the MarkerStates and
MarkerIndex publishes are each attempted exactly once and their response
codes never influence the run: two data stores that differ only in the
responses of those two publish calls produce identical outcomes, and the
heterogeneity process still executes. -/
theorem claim_C8 (ds ds' : Datastore) (ctx : Context) (w : World)
    (hA : ds.get_pathology_result_image_path = ds'.get_pathology_result_image_path)
    (hB : ds.get_instance = ds'.get_instance)
    (hC : ds.get_pathology_result_path = ds'.get_pathology_result_path)
    (hE : ds.get_pathology_primary_path = ds'.get_pathology_primary_path)
    (hD : ∀ p d n f fo, n ≠ markerStatesCsv ctx.region → n ≠ markerIndexCsv ctx.region →
      ds.post_instance p d n f fo = ds'.post_instance p d n f fo)
    (h200 : ds.get_instance
        (ds.get_pathology_result_image_path ctx.slide ctx.region ctx.branch "Quant")
        "/rt106/data" (quantCsv ctx.region) "csv" = 200)
    (h1 : w.runProcess (thresholdCmd ctx.region) = 0)
    (hpost : ds.post_instance (ds.get_pathology_result_path ctx.slide ctx.region ctx.branch "MOHA")
        "/rt106/data" (thresholdsCsv ctx.region) "csv" ctx.force ≠ 403)
    (h2 : w.runProcess (cellStatesCmd ctx.region) = 0) :
    run_algorithm ds ctx w = run_algorithm ds' ctx w ∧
    List.count (markerStatesCsv ctx.region) (run_algorithm ds ctx w).2.publishes = 1 ∧
    List.count (markerIndexCsv ctx.region) (run_algorithm ds ctx w).2.publishes = 1 ∧
    heterogeneityCmd ctx.region ∈ (run_algorithm ds ctx w).2.processes := by
  have hth : ds.post_instance (ds'.get_pathology_result_path ctx.slide ctx.region ctx.branch "MOHA")
      "/rt106/data" (thresholdsCsv ctx.region) "csv" ctx.force =
      ds'.post_instance (ds'.get_pathology_result_path ctx.slide ctx.region ctx.branch "MOHA")
      "/rt106/data" (thresholdsCsv ctx.region) "csv" ctx.force :=
    hD _ _ _ _ _ (thresholdsCsv_ne_markerStatesCsv ctx.region)
      (thresholdsCsv_ne_markerIndexCsv ctx.region)
  have hcong : run_algorithm ds ctx w = run_algorithm ds' ctx w := by
    simp only [run_algorithm, afterThreshold, afterCellStates, metricsTail, resultContext,
      hA, hB, hC, hE, hth]
  have hrun := run_to_afterCellStates ds ctx w h200 h1 hpost h2
  have htrpub : (run_algorithm ds ctx w).2.publishes =
      [thresholdsCsv ctx.region, markerStatesCsv ctx.region, markerIndexCsv ctx.region] ∨
      (run_algorithm ds ctx w).2.publishes =
      [thresholdsCsv ctx.region, markerStatesCsv ctx.region, markerIndexCsv ctx.region,
       heterogeneityCsv ctx.region] := by
    rw [hrun]
    by_cases hx : w.runProcess (heterogeneityCmd ctx.region) = 0
    · right
      simp [afterCellStates, hx, metricsTail_snd]
    · left
      simp [afterCellStates, hx]
  have htrproc : (run_algorithm ds ctx w).2.processes =
      [thresholdCmd ctx.region, cellStatesCmd ctx.region, heterogeneityCmd ctx.region] := by
    rw [hrun]
    by_cases hx : w.runProcess (heterogeneityCmd ctx.region) = 0 <;>
      simp [afterCellStates, hx, metricsTail_snd]
  refine ⟨hcong, ?_, ?_, ?_⟩
  · rcases htrpub with h | h <;>
      simp [h, List.count_cons, List.count_nil, beq_iff_eq,
        Ne.symm (thresholdsCsv_ne_markerStatesCsv ctx.region),
        Ne.symm (markerIndexCsv_ne_markerStatesCsv ctx.region),
        Ne.symm (heterogeneityCsv_ne_markerStatesCsv ctx.region)]
  · rcases htrpub with h | h <;>
      simp [h, List.count_cons, List.count_nil, beq_iff_eq,
        Ne.symm (thresholdsCsv_ne_markerIndexCsv ctx.region),
        Ne.symm (markerStatesCsv_ne_markerIndexCsv ctx.region),
        Ne.symm (heterogeneityCsv_ne_markerIndexCsv ctx.region)]
  · rw [htrproc]
    simp

/-- Witness for C8: two concrete data stores answering 403 and 500 on the
two cell-state publishes produce identical runs, with both publishes traced
once and the heterogeneity command executed. -/
theorem claim_C8_witness :
    run_algorithm dsMarkerForbidden ctx1 wGood = run_algorithm dsMarkerError ctx1 wGood ∧
    List.count (markerStatesCsv "r") (run_algorithm dsMarkerForbidden ctx1 wGood).2.publishes = 1 ∧
    List.count (markerIndexCsv "r") (run_algorithm dsMarkerForbidden ctx1 wGood).2.publishes = 1 ∧
    heterogeneityCmd "r" ∈ (run_algorithm dsMarkerForbidden ctx1 wGood).2.processes :=
  claim_C8 dsMarkerForbidden dsMarkerError ctx1 wGood rfl rfl rfl rfl
    (fun p d n f fo hn1 hn2 => by
      simp only [ctx1] at hn1 hn2
      simp [dsMarkerForbidden, dsMarkerError, dsGood, hn1, hn2])
    rfl rfl (by decide) rfl

/-- Claim C9: with the success path reached and header/value rows of equal
column count, result extraction fails with a KeyError naming one of the
three required metric keys whenever one of them is missing from the header,
and succeeds (returning the four-entry result) when all three are present. -/
theorem claim_C9 (ds : Datastore) (ctx : Context) (w : World)
    (h200 : ds.get_instance
        (ds.get_pathology_result_image_path ctx.slide ctx.region ctx.branch "Quant")
        "/rt106/data" (quantCsv ctx.region) "csv" = 200)
    (h1 : w.runProcess (thresholdCmd ctx.region) = 0)
    (hpost : ds.post_instance (ds.get_pathology_result_path ctx.slide ctx.region ctx.branch "MOHA")
        "/rt106/data" (thresholdsCsv ctx.region) "csv" ctx.force ≠ 403)
    (h2 : w.runProcess (cellStatesCmd ctx.region) = 0)
    (h3 : w.runProcess (heterogeneityCmd ctx.region) = 0)
    (hEq : (hetCols (hetFileContent ctx w)).length = (hetVals (hetFileContent ctx w)).length) :
    (("CellFamily_Heterogeneity" ∉ hetCols (hetFileContent ctx w) ∨
      "CellSocial_Heterogeneity" ∉ hetCols (hetFileContent ctx w) ∨
      "Molecular_Heterogeneity" ∉ hetCols (hetFileContent ctx w)) →
      ∃ k, (k = "CellFamily_Heterogeneity" ∨ k = "CellSocial_Heterogeneity" ∨
            k = "Molecular_Heterogeneity") ∧
        k ∉ hetCols (hetFileContent ctx w) ∧
        (run_algorithm ds ctx w).1 = Except.error (PyErr.keyError k)) ∧
    ("CellFamily_Heterogeneity" ∈ hetCols (hetFileContent ctx w) →
      "CellSocial_Heterogeneity" ∈ hetCols (hetFileContent ctx w) →
      "Molecular_Heterogeneity" ∈ hetCols (hetFileContent ctx w) →
      ∃ v1 v2 v3, (run_algorithm ds ctx w).1 =
        Except.ok ⟨[("nuclearImage", ds.get_pathology_primary_path ctx.slide ctx.region "DAPI"),
                    ("CellFamily_Heterogeneity", v1),
                    ("CellSocial_Heterogeneity", v2),
                    ("Molecular_Heterogeneity", v3)],
                   PyVal.str "EXECUTION_FINISHED_SUCCESS"⟩) := by
  have hlen : (hetCols (hetFileContent ctx w)).length ≤ (hetVals (hetFileContent ctx w)).length :=
    le_of_eq hEq
  have hrun := run_to_metricsTail ds ctx w h200 h1 hpost h2 h3
  obtain ⟨d, hd⟩ := buildHetdict_ok (hetCols (hetFileContent ctx w))
    (hetVals (hetFileContent ctx w)) [] hlen
  have hex : extractHetMetricsFile (hetFileContent ctx w) = Except.ok d := hd
  constructor
  · intro hmiss
    by_cases hc1 : "CellFamily_Heterogeneity" ∈ hetCols (hetFileContent ctx w)
    · obtain ⟨v1, hv1, hm1⟩ := buildHetdict_mem _ _ d hd hlen _ hc1
      by_cases hc2 : "CellSocial_Heterogeneity" ∈ hetCols (hetFileContent ctx w)
      · obtain ⟨v2, hv2, hm2⟩ := buildHetdict_mem _ _ d hd hlen _ hc2
        by_cases hc3 : "Molecular_Heterogeneity" ∈ hetCols (hetFileContent ctx w)
        · rcases hmiss with hm | hm | hm
          · exact absurd hc1 hm
          · exact absurd hc2 hm
          · exact absurd hc3 hm
        · refine ⟨"Molecular_Heterogeneity", by simp, hc3, ?_⟩
          have hn3 := buildHetdict_not_mem _ _ d hd _ hc3
          rw [hrun]
          simp [metricsTail, hex, resultContext, dictGetE, hv1, hv2, hn3]
      · refine ⟨"CellSocial_Heterogeneity", by simp, hc2, ?_⟩
        have hn2 := buildHetdict_not_mem _ _ d hd _ hc2
        rw [hrun]
        simp [metricsTail, hex, resultContext, dictGetE, hv1, hn2]
    · refine ⟨"CellFamily_Heterogeneity", by simp, hc1, ?_⟩
      have hn1 := buildHetdict_not_mem _ _ d hd _ hc1
      rw [hrun]
      simp [metricsTail, hex, resultContext, dictGetE, hn1]
  · intro hk1 hk2 hk3
    obtain ⟨v1, v2, v3, hm1, hm2, hm3, htail⟩ :=
      metricsTail_success_of_keys ds ctx w
        ⟨[thresholdCmd ctx.region, cellStatesCmd ctx.region, heterogeneityCmd ctx.region],
         [thresholdsCsv ctx.region, markerStatesCsv ctx.region, markerIndexCsv ctx.region,
          heterogeneityCsv ctx.region]⟩ hlen hk1 hk2 hk3
    refine ⟨v1, v2, v3, ?_⟩
    rw [hrun, htail]

/-- Witness for C9: a metrics file missing Molecular_Heterogeneity makes the
run fail with that KeyError, and the well-formed metrics file lets extraction
succeed. -/
theorem claim_C9_witness :
    (∃ k, (k = "CellFamily_Heterogeneity" ∨ k = "CellSocial_Heterogeneity" ∨
           k = "Molecular_Heterogeneity") ∧
      k ∉ hetCols (hetFileContent ctx1 wBadFile) ∧
      (run_algorithm dsGood ctx1 wBadFile).1 = Except.error (PyErr.keyError k)) ∧
    (∃ v1 v2 v3, (run_algorithm dsGood ctx1 wGood).1 =
      Except.ok ⟨[("nuclearImage", "/patients/p1/dapi.tif"),
                  ("CellFamily_Heterogeneity", v1),
                  ("CellSocial_Heterogeneity", v2),
                  ("Molecular_Heterogeneity", v3)],
                 PyVal.str "EXECUTION_FINISHED_SUCCESS"⟩) :=
  ⟨(claim_C9 dsGood ctx1 wBadFile rfl rfl (by decide) rfl rfl rfl).1 (by decide),
   (claim_C9 dsGood ctx1 wGood rfl rfl (by decide) rfl rfl rfl).2
     (by decide) (by decide) (by decide)⟩

/-- Claim C10: the metrics parser iterates over the header token count.  A
value row with fewer tokens than the header makes the parse fail with
IndexError; otherwise the parse succeeds, the mapping is defined exactly on
the header tokens (surplus value tokens silently discarded), and each key is
bound to the value paired with its last occurrence in the header. -/
theorem claim_C10 (hetcolumns hetvalues : String) :
    ((pySplitTab (pyStrip hetvalues)).length < (pySplitTab (pyStrip hetcolumns)).length →
      parseHetLines hetcolumns hetvalues = Except.error PyErr.indexError) ∧
    ((pySplitTab (pyStrip hetcolumns)).length ≤ (pySplitTab (pyStrip hetvalues)).length →
      ∃ d, parseHetLines hetcolumns hetvalues = Except.ok d ∧
        (∀ k, (dictGet? d k).isSome = true ↔ k ∈ pySplitTab (pyStrip hetcolumns)) ∧
        (∀ k, dictGet? d k =
          lastLookup k ((pySplitTab (pyStrip hetcolumns)).zip
            (pySplitTab (pyStrip hetvalues))))) := by
  constructor
  · intro h
    exact buildHetdict_err _ _ [] h
  · intro h
    obtain ⟨d, hd⟩ := buildHetdict_ok _ _ [] h
    refine ⟨d, hd, ?_, fun k => buildHetdict_get _ _ d hd k⟩
    intro k
    rw [buildHetdict_get _ _ d hd k, lastLookup_isSome, List.map_fst_zip _ _ h]

/-- Witness for C10: a short value row fails with IndexError; a value row
with a surplus token and a duplicated header token parses with the duplicate
overwritten and the surplus discarded. -/
theorem claim_C10_witness :
    parseHetLines "A\tB" "1" = Except.error PyErr.indexError ∧
    (∃ d, parseHetLines "A\tB\tA" "1\t2\t3\t4" = Except.ok d ∧
      (∀ k, (dictGet? d k).isSome = true ↔ k ∈ pySplitTab (pyStrip "A\tB\tA")) ∧
      (∀ k, dictGet? d k =
        lastLookup k ((pySplitTab (pyStrip "A\tB\tA")).zip
          (pySplitTab (pyStrip "1\t2\t3\t4"))))) :=
  ⟨(claim_C10 "A\tB" "1").1 (by decide),
   (claim_C10 "A\tB\tA" "1\t2\t3\t4").2 (by decide)⟩

/-- Witness for C5: the guard is false at the integer 404, the very value an
int-typed not-found sentinel would take. -/
theorem claim_C5_witness : quantNotFoundCheck (PyVal.int 404) = false :=
  claim_C5 (PyVal.int 404)
